import Mathlib

/-!
Verification of the LocalPlay quiz client against its specification.

The development shallowly embeds the React player client
(`frontend/src/pages/PlayerPage.tsx`) as an explicit state machine: the
component's `useState` hooks become fields of `ClientState`, the
`ws.onmessage` handler becomes `handleMessage`, the `ws.onclose` handler
becomes `handleClose`, and user interaction with the rendered buttons
becomes `step` over `ClientEvent`s, which also records the WebSocket
frames the client sends.  The organizer screens (`LobbyScreen.tsx`,
`ReviewScreen.tsx`) and the leaderboard rank-change rendering are embedded
as small pure functions.  The server-side scorer is not among the sources
and is modelled from the specification in the `Scorer` namespace.
-/

namespace Quiz

/-- Participant entries (nickname plus avatar) as carried by lobby events,
mirroring `PlayerInfo` in `types.ts`. -/
structure PlayerInfo where
  nickname : String
  avatar : String
  deriving DecidableEq

/-- Leaderboard entries from `types.ts`: nickname, score, optional rank
change and optional streak. -/
structure LeaderboardEntry where
  nickname : String
  score : Int
  rank_change : Option Int := none
  streak : Option Nat := none
  deriving DecidableEq

/-- Team leaderboard entries from `types.ts`. -/
structure TeamLeaderboardEntry where
  team : String
  score : Int
  members : Nat
  deriving DecidableEq

/-- The per-player projection of a question as received by the client
(`PlayerQuestion` in `PlayerPage.tsx`); the correct index is never sent. -/
structure PlayerQuestion where
  id : Nat
  text : String
  options : List String
  deriving DecidableEq

/-- The two per-game power-up flags (`PowerUps` in `types.ts`). -/
structure PowerUps where
  double_points : Bool
  fifty_fifty : Bool
  deriving DecidableEq

/-- The power-up discriminator used in `USE_POWER_UP` frames. -/
inductive PowerUp
  | double_points
  | fifty_fifty
  deriving DecidableEq

/-- The player client's screen state (`PlayerState` in `PlayerPage.tsx`). -/
inductive PState
  | JOIN
  | LOBBY
  | QUESTION
  | WAITING
  | RESULT
  | PODIUM
  | RECONNECTING
  deriving DecidableEq

/-- Inbound server events as parsed by the `ws.onmessage` handler of
`PlayerPage.tsx`.  Fields the handler reads with a JavaScript truthiness
default (`msg.x || d`) are modelled as `Option`s. -/
inductive ServerMsg
  | ERROR (message : String)
  | KICKED
  | JOINED_ROOM
  | RECONNECTED (rstate : String) (question : Option PlayerQuestion)
      (question_number : Nat) (total_questions : Nat) (time_limit : Int)
      (is_bonus : Option Bool)
  | PLAYER_JOINED (players : Option (List PlayerInfo))
  | PLAYER_LEFT (players : Option (List PlayerInfo))
  | PLAYER_DISCONNECTED (players : Option (List PlayerInfo))
  | PLAYER_RECONNECTED (players : Option (List PlayerInfo))
  | GAME_STARTING
  | QUESTION (question : PlayerQuestion) (question_number : Nat)
      (total_questions : Nat) (time_limit : Int) (is_bonus : Option Bool)
  | TIMER (remaining : Int)
  | ANSWER_RESULT (correct : Bool) (points : Int) (streak : Option Nat)
      (multiplier : Option Rat)
  | POWER_UP_ACTIVATED (power_up : PowerUp) (remove_indices : Option (List Nat))
  | QUESTION_OVER (answer : Nat) (leaderboard : List LeaderboardEntry)
      (is_final : Bool)
  | PODIUM (leaderboard : List LeaderboardEntry)
      (team_leaderboard : Option (List TeamLeaderboardEntry))
  | ORGANIZER_DISCONNECTED
  | ROOM_CLOSED
  | HOST_RECONNECTED
  | ROOM_RESET (players : Option (List PlayerInfo))
  deriving DecidableEq

/-- Outbound WebSocket frames the player client can send. -/
inductive Frame
  | JOIN (nickname : String) (team : Option String) (avatar : String)
  | ANSWER (answer_index : Nat)
  | USE_POWER_UP (power_up : PowerUp)
  deriving DecidableEq

/-- The complete mutable state of the player client: one field per
`useState` hook of `PlayerPage`, plus the `wsRef`/`kickedRef` refs and the
session-storage flag. -/
structure ClientState where
  state : PState
  roomCode : String
  nickname : String
  team : String
  avatar : String
  currentQuestion : Option PlayerQuestion
  questionNumber : Nat
  totalQuestions : Nat
  timeLimit : Int
  timeRemaining : Int
  selectedAnswer : Option Nat
  isCorrect : Option Bool
  pointsEarned : Int
  streak : Nat
  multiplier : Rat
  correctAnswer : Option Nat
  leaderboard : List LeaderboardEntry
  teamLeaderboard : List TeamLeaderboardEntry
  myRank : Nat
  errorMsg : String
  lobbyPlayers : List PlayerInfo
  powerUps : PowerUps
  hiddenOptions : List Nat
  isBonus : Bool
  showBonusSplash : Bool
  sessionSaved : Bool
  wsOpen : Bool
  kicked : Bool
  deriving DecidableEq

/-- JavaScript `x || d` for an optional number: `undefined` and `0` both
fall back to the default. -/
def jsOrNat (o : Option Nat) (d : Nat) : Nat :=
  match o with
  | none => d
  | some v => if v = 0 then d else v

/-- JavaScript `x || d` for an optional rational. -/
def jsOrRat (o : Option Rat) (d : Rat) : Rat :=
  match o with
  | none => d
  | some v => if v = 0 then d else v

/-- Transcription of the `ws.onmessage` handler of `PlayerPage.tsx`: how a
single parsed server event updates the client state. -/
def handleMessage (s : ClientState) (m : ServerMsg) : ClientState :=
  match m with
  | .ERROR message =>
      if message = "Room not found" ∨ message = "Room is full" then
        { s with errorMsg := message, kicked := true, wsOpen := false,
                 sessionSaved := false, state := .JOIN }
      else
        { s with errorMsg := message }
  | .KICKED =>
      { s with kicked := true, wsOpen := false, state := .JOIN,
               errorMsg := "You joined from another device" }
  | .JOINED_ROOM =>
      { s with sessionSaved := true, state := .LOBBY }
  | .RECONNECTED rstate question question_number total_questions time_limit is_bonus =>
      let s1 := { s with sessionSaved := true, questionNumber := question_number,
                         totalQuestions := total_questions }
      if rstate = "LOBBY" then
        { s1 with state := .LOBBY }
      else
        match question with
        | some q =>
            if rstate = "QUESTION" then
              { s1 with currentQuestion := some q, timeLimit := time_limit,
                        timeRemaining := time_limit, selectedAnswer := none,
                        isCorrect := none, pointsEarned := 0,
                        correctAnswer := none, hiddenOptions := [],
                        isBonus := is_bonus.getD false, state := .QUESTION }
            else
              { s1 with state := .WAITING }
        | none => { s1 with state := .WAITING }
  | .PLAYER_JOINED players =>
      match players with
      | some ps => { s with lobbyPlayers := ps }
      | none => s
  | .PLAYER_LEFT players =>
      match players with
      | some ps => { s with lobbyPlayers := ps }
      | none => s
  | .PLAYER_DISCONNECTED players =>
      match players with
      | some ps => { s with lobbyPlayers := ps }
      | none => s
  | .PLAYER_RECONNECTED players =>
      match players with
      | some ps => { s with lobbyPlayers := ps }
      | none => s
  | .GAME_STARTING =>
      { s with state := .LOBBY }
  | .QUESTION question question_number total_questions time_limit is_bonus =>
      { s with currentQuestion := some question,
               questionNumber := question_number,
               totalQuestions := total_questions,
               timeLimit := time_limit, timeRemaining := time_limit,
               selectedAnswer := none, isCorrect := none, pointsEarned := 0,
               correctAnswer := none, hiddenOptions := [],
               isBonus := is_bonus.getD false,
               showBonusSplash := if is_bonus.getD false then true else s.showBonusSplash,
               state := .QUESTION }
  | .TIMER remaining =>
      { s with timeRemaining := remaining }
  | .ANSWER_RESULT correct points streak multiplier =>
      { s with isCorrect := some correct, pointsEarned := points,
               streak := jsOrNat streak 0, multiplier := jsOrRat multiplier 1,
               state := .WAITING }
  | .POWER_UP_ACTIVATED power_up remove_indices =>
      match power_up with
      | .double_points =>
          { s with powerUps := { s.powerUps with double_points := false } }
      | .fifty_fifty =>
          let s1 := { s with powerUps := { s.powerUps with fifty_fifty := false } }
          match remove_indices with
          | some idxs => { s1 with hiddenOptions := idxs }
          | none => s1
  | .QUESTION_OVER answer lb is_final =>
      { s with correctAnswer := some answer, leaderboard := lb,
               myRank := (match lb.findIdx? (fun p => p.nickname == s.nickname) with
                          | some i => i + 1
                          | none => 0),
               state := if is_final then .WAITING else .RESULT }
  | .PODIUM lb team_lb =>
      { s with leaderboard := lb, teamLeaderboard := team_lb.getD [],
               state := .PODIUM }
  | .ORGANIZER_DISCONNECTED =>
      { s with errorMsg := "The host has disconnected. Waiting for them to return..." }
  | .ROOM_CLOSED =>
      { s with wsOpen := false, kicked := true, sessionSaved := false,
               state := .JOIN, errorMsg := "The host has left and the room was closed" }
  | .HOST_RECONNECTED =>
      { s with errorMsg := "" }
  | .ROOM_RESET players =>
      { s with currentQuestion := none, questionNumber := 0, totalQuestions := 0,
               selectedAnswer := none, isCorrect := none, pointsEarned := 0,
               streak := 0, multiplier := 1, correctAnswer := none,
               leaderboard := [], teamLeaderboard := [], myRank := 0,
               hiddenOptions := [],
               powerUps := { double_points := true, fifty_fifty := true },
               isBonus := false, showBonusSplash := false,
               lobbyPlayers := (match players with
                                | some ps => ps
                                | none => s.lobbyPlayers),
               state := .LOBBY }

/-- Transcription of the `ws.onclose` handler: the updated state and, when a
rejoin is scheduled, the delay in milliseconds. -/
def handleClose (s : ClientState) : ClientState × Option Nat :=
  if s.kicked then
    ({ s with kicked := false }, none)
  else if s.state ≠ PState.JOIN ∧ s.state ≠ PState.PODIUM then
    ({ s with state := .RECONNECTING }, some 2000)
  else if s.state = PState.JOIN then
    ({ s with errorMsg := "Room not found" }, none)
  else
    (s, none)

/-- The `wsRef.current?.send` call: a frame only leaves the client when the
socket reference is live. -/
def sendFrame (s : ClientState) (f : Frame) : List Frame :=
  if s.wsOpen then [f] else []

/-- Transcription of `submitAnswer` in `PlayerPage.tsx`: a no-op when an
answer is already selected, otherwise select and send an `ANSWER` frame. -/
def submitAnswer (s : ClientState) (i : Nat) : ClientState × List Frame :=
  match s.selectedAnswer with
  | some _ => (s, [])
  | none => ({ s with selectedAnswer := some i }, sendFrame s (.ANSWER i))

/-- Transcription of `usePowerUp` in `PlayerPage.tsx`: send the frame; all
guarding happens in the render conditions. -/
def usePowerUp (s : ClientState) (p : PowerUp) : ClientState × List Frame :=
  (s, sendFrame s (.USE_POWER_UP p))

/-- Number of options of the currently displayed question (0 when none). -/
def currentOptionsCount (s : ClientState) : Nat :=
  match s.currentQuestion with
  | some q => q.options.length
  | none => 0

/-- JavaScript `String.prototype.trim`: strip leading and trailing
whitespace (kept explicit so it evaluates by kernel reduction). -/
def jsTrim (s : String) : String :=
  ⟨((s.data.dropWhile Char.isWhitespace).reverse.dropWhile Char.isWhitespace).reverse⟩

/-- Transcription of `joinRoom` entry guard and connection setup: the guard
`if (!roomCode.trim() || !nickname.trim()) return;` rejects blank inputs
before any socket is opened; otherwise the socket opens and `ws.onopen`
sends the `JOIN` frame (`team: team || undefined`). -/
def joinRoom (s : ClientState) : ClientState × Option Frame :=
  if jsTrim s.roomCode = "" ∨ jsTrim s.nickname = "" then
    (s, none)
  else
    ({ s with errorMsg := "", kicked := false, wsOpen := true },
     some (Frame.JOIN s.nickname (if s.team = "" then none else some s.team) s.avatar))

/-- Whether a power-up button is rendered in the current frame of the
question screen: the whole power-up row requires `state === 'QUESTION'`, a
current question, no bonus splash and `selectedAnswer === null`; the 50/50
button additionally requires exactly 4 options. -/
def powerUpShown (s : ClientState) (p : PowerUp) : Bool :=
  decide (s.state = PState.QUESTION) && s.currentQuestion.isSome &&
  !s.showBonusSplash && s.selectedAnswer.isNone &&
  (match p with
   | .double_points => s.powerUps.double_points
   | .fifty_fifty =>
       s.powerUps.fifty_fifty && decide (currentOptionsCount s = 4))

/-- Whether the answer button for option `i` is rendered and enabled:
buttons exist only on the question screen, and are disabled once an answer
is selected or when the option is hidden by a 50/50. -/
def answerButtonEnabled (s : ClientState) (i : Nat) : Bool :=
  decide (s.state = PState.QUESTION) && s.currentQuestion.isSome &&
  !s.showBonusSplash && decide (i < currentOptionsCount s) &&
  s.selectedAnswer.isNone && !(s.hiddenOptions.contains i)

/-- The atomic things that can happen to the client: a parsed server event,
a user interaction with a rendered control, the bonus-splash animation
finishing, the socket closing, or the scheduled rejoin firing. -/
inductive ClientEvent
  | server (m : ServerMsg)
  | clickAnswer (i : Nat)
  | clickPowerUp (p : PowerUp)
  | splashDone
  | socketClosed
  | rejoin
  deriving DecidableEq

/-- One step of the client: the next state and the frames sent during the
step.  Clicks only have an effect when the corresponding control is
rendered and enabled. -/
def step (s : ClientState) (e : ClientEvent) : ClientState × List Frame :=
  match e with
  | .server m => (handleMessage s m, [])
  | .clickAnswer i =>
      if answerButtonEnabled s i then submitAnswer s i else (s, [])
  | .clickPowerUp p =>
      if powerUpShown s p then usePowerUp s p else (s, [])
  | .splashDone => ({ s with showBonusSplash := false }, [])
  | .socketClosed => ((handleClose s).1, [])
  | .rejoin =>
      let r := joinRoom s
      (r.1, r.2.toList)

/-- Run the client over a list of events, accumulating the sent frames. -/
def runClient (s : ClientState) : List ClientEvent → ClientState × List Frame
  | [] => (s, [])
  | e :: es =>
      let r := step s e
      let r2 := runClient r.1 es
      (r2.1, r.2 ++ r2.2)

/-- Events whose handlers assign `selectedAnswer` to `null`: a new
`QUESTION`, a `RECONNECTED` resynchronization, or a `ROOM_RESET`. -/
def clearsAnswerSelection : ClientEvent → Bool
  | .server (.QUESTION _ _ _ _ _) => true
  | .server (.RECONNECTED _ _ _ _ _ _) => true
  | .server (.ROOM_RESET _) => true
  | _ => false

/-- Whether an event is a `ROOM_RESET` server event. -/
def isRoomResetEvent : ClientEvent → Bool
  | .server (.ROOM_RESET _) => true
  | _ => false

/-- Whether a frame is an `ANSWER` frame. -/
def isAnswerFrame : Frame → Bool
  | .ANSWER _ => true
  | _ => false

/-- Number of `ANSWER` frames in a frame list. -/
def answerFrameCount (fs : List Frame) : Nat :=
  fs.countP isAnswerFrame

/-- Projection of the flag for one power-up out of the `PowerUps` record. -/
def powerUpFlag (pu : PowerUps) : PowerUp → Bool
  | .double_points => pu.double_points
  | .fifty_fifty => pu.fifty_fifty

/-- The initial client state, one value per `useState` initializer of
`PlayerPage` (the room code, nickname, team and avatar inputs are
parameters: they come from the URL, saved session or user typing). -/
def initialClientState (roomCode nickname team avatar : String) : ClientState :=
  { state := .JOIN, roomCode := roomCode, nickname := nickname, team := team,
    avatar := avatar, currentQuestion := none, questionNumber := 0,
    totalQuestions := 0, timeLimit := 15, timeRemaining := 15,
    selectedAnswer := none, isCorrect := none, pointsEarned := 0, streak := 0,
    multiplier := 1, correctAnswer := none, leaderboard := [],
    teamLeaderboard := [], myRank := 0, errorMsg := "", lobbyPlayers := [],
    powerUps := { double_points := true, fifty_fifty := true },
    hiddenOptions := [], isBonus := false, showBonusSplash := false,
    sessionSaved := false, wsOpen := false, kicked := false }

/-- The nickname input field carries `maxLength={20}` in `PlayerPage.tsx`. -/
def nicknameMaxLength : Nat := 20

/-- Value held by the nickname input after typing `typed`: the DOM
truncates to the declared `maxLength`. -/
def nicknameInputValue (typed : String) : String :=
  typed.take nicknameMaxLength

/-- A concrete four-option question, for exercising the model. -/
def sampleQuestion4 : PlayerQuestion :=
  { id := 1, text := "2 plus 2?", options := ["3", "4", "5", "6"] }

/-- A concrete two-option question, for exercising the model. -/
def sampleQuestion2 : PlayerQuestion :=
  { id := 2, text := "Is the sky blue?", options := ["True", "False"] }

/-- A client sitting on the question screen for `q` with a live socket. -/
def questionClientState (q : PlayerQuestion) : ClientState :=
  { initialClientState "ABC123" "ann" "" "A" with
      state := .QUESTION, currentQuestion := some q, wsOpen := true,
      questionNumber := 1, totalQuestions := 1 }

end Quiz

namespace LobbyScreen

/-- The Start Game button in every `LobbyScreen` variant is declared with
`disabled={playerCount === 0}`. -/
def startGameDisabled (playerCount : Nat) : Bool :=
  playerCount == 0

/-- A click on the Start Game button reaches `onStartGame` exactly when the
button is not disabled. -/
def startGameClickFires (playerCount : Nat) : Bool :=
  !startGameDisabled playerCount

end LobbyScreen

namespace Leaderboard

/-- What the rank-change slot renders: an up arrow with the raw value, or a
down arrow with the absolute value. -/
inductive RankArrow
  | upArrow (shown : Int)
  | downArrow (shown : Nat)
  deriving DecidableEq

/-- Transcription of the rank-change rendering in the organizer leaderboard
(`rank_change > 0 ? up(rank_change) : down(Math.abs(rank_change))`, shown
only when `rank_change !== 0`). -/
def rankChangeIndicator (rank_change : Int) : Option RankArrow :=
  if rank_change ≠ 0 then
    some (if rank_change > 0 then RankArrow.upArrow rank_change
          else RankArrow.downArrow rank_change.natAbs)
  else
    none

/-- Rendering for a full leaderboard entry, where an absent `rank_change`
(`undefined`) also renders nothing. -/
def entryRankArrow (e : Quiz.LeaderboardEntry) : Option RankArrow :=
  match e.rank_change with
  | none => none
  | some rc => rankChangeIndicator rc

end Leaderboard

namespace ReviewScreen

/-- The preset values offered by the time-per-question selector
(`TIME_PRESETS` in `ReviewScreen.tsx`). -/
def TIME_PRESETS : List Int := [10, 15, 20, 30, 45, 60]

/-- JavaScript `parseInt(value) || 15`: a failed parse (`NaN`) and an
explicit `0` both fall back to 15. -/
def timeInputParse (parsed : Option Int) : Int :=
  match parsed with
  | none => 15
  | some v => if v = 0 then 15 else v

/-- The numeric time-limit input clamps with
`Math.max(5, Math.min(60, parseInt(value) || 15))`. -/
def timeInputClamp (parsed : Option Int) : Int :=
  max 5 (min 60 (timeInputParse parsed))

/-- The ways the organizer can change the time limit on the review screen:
clicking the `i`-th preset button, typing into the numeric input, or using
the stepper buttons. -/
inductive TimeAction
  | preset (i : Nat)
  | numericInput (parsed : Option Int)
  | stepDown
  | stepUp
  deriving DecidableEq

/-- Effect of one time-limit action.  The stepper buttons are disabled at
the bounds (`disabled={timeLimit <= 5}` and `disabled={timeLimit >= 60}`)
and otherwise move by 5, clamped with `Math.max(5, t - 5)` and
`Math.min(60, t + 5)`; a preset click beyond the list leaves the value. -/
def timeStep (t : Int) (a : TimeAction) : Int :=
  match a with
  | .preset i => TIME_PRESETS.getD i t
  | .numericInput parsed => timeInputClamp parsed
  | .stepDown => if t ≤ 5 then t else max 5 (t - 5)
  | .stepUp => if 60 ≤ t then t else min 60 (t + 5)

/-- The organizer page initializes the time limit with `useState(15)`. -/
def defaultTimeLimit : Int := 15

/-- Time limit after a sequence of review-screen actions from the default. -/
def timeLimitAfter (as : List TimeAction) : Int :=
  as.foldl timeStep defaultTimeLimit

end ReviewScreen

namespace Scorer

/-- Modelled from the spec: the Scorer (spec section 4.4) runs on the game
server, which is not among the repository sources here (only the web client
is).  Base points for a correct answer with latency fraction `f`:
`round(1000 * (1 - 0.5 * f))`. -/
def scoreBase (f : Rat) : Int :=
  round (1000 * (1 - (1 / 2) * f))

/-- Modelled from the spec: streak multiplier from the new streak value. -/
def streakMultiplier (new_streak : Nat) : Rat :=
  if new_streak < 3 then 1
  else if new_streak < 5 then 3 / 2
  else 2

/-- Modelled from the spec: bonus questions double the points. -/
def bonusMultiplier (is_bonus : Bool) : Rat :=
  if is_bonus then 2 else 1

/-- Points awarded and resulting streak for one scored answer. -/
structure ScoreResult where
  points : Int
  newStreak : Nat
  deriving DecidableEq

/-- Modelled from the spec: the scorer's output for one answer.  A correct
answer earns `round(base * player_multiplier * streak_mul * bonus_mul)` and
increments the streak; an incorrect or missing answer earns 0 and resets
the streak. -/
def scorer (correct : Bool) (f : Rat) (oldStreak : Nat)
    (playerMultiplier : Rat) (isBonus : Bool) : ScoreResult :=
  if correct then
    { points := round ((scoreBase f : Rat) * playerMultiplier *
        streakMultiplier (oldStreak + 1) * bonusMultiplier isBonus),
      newStreak := oldStreak + 1 }
  else
    { points := 0, newStreak := 0 }

end Scorer

namespace Quiz

/-- Helper: bounds of the review-screen clamp. -/
theorem timeInputClamp_bounds (parsed : Option Int) :
    5 ≤ ReviewScreen.timeInputClamp parsed ∧ ReviewScreen.timeInputClamp parsed ≤ 60 := by
  unfold ReviewScreen.timeInputClamp
  constructor
  · exact le_max_left _ _
  · rw [max_def, min_def]
    split <;> split <;> omega

/-- Helper: one review-screen action keeps the time limit in bounds. -/
theorem timeStep_bounds (t : Int) (a : ReviewScreen.TimeAction)
    (h1 : 5 ≤ t) (h2 : t ≤ 60) :
    5 ≤ ReviewScreen.timeStep t a ∧ ReviewScreen.timeStep t a ≤ 60 := by
  cases a with
  | preset i =>
      simp only [ReviewScreen.timeStep, ReviewScreen.TIME_PRESETS]
      rcases i with _ | _ | _ | _ | _ | _ | i
      all_goals simp [List.getD]
      all_goals omega
  | numericInput parsed => exact timeInputClamp_bounds parsed
  | stepDown =>
      simp only [ReviewScreen.timeStep]
      split
      · omega
      · rw [max_def]; split <;> omega
  | stepUp =>
      simp only [ReviewScreen.timeStep]
      split
      · omega
      · rw [min_def]; split <;> omega

/-- Helper: folding review-screen actions preserves the bounds. -/
theorem timeFold_bounds (as : List ReviewScreen.TimeAction) :
    ∀ t : Int, 5 ≤ t → t ≤ 60 →
      5 ≤ as.foldl ReviewScreen.timeStep t ∧ as.foldl ReviewScreen.timeStep t ≤ 60 := by
  induction as with
  | nil => intro t h1 h2; simpa using ⟨h1, h2⟩
  | cons a as ih =>
      intro t h1 h2
      have hb := timeStep_bounds t a h1 h2
      simpa using ih _ hb.1 hb.2

end Quiz

/-- C10: the per-question time limit chosen in the review screen always lies
in [5, 60] seconds: starting from the default of 15, any sequence of preset
clicks, numeric entries (clamped with max(5, min(60, parsed or 15))) and
stepper moves stays within the bounds, and the presets offer only 10..60. -/
theorem reviewScreen_timeLimit_bounds :
    (∀ as : List ReviewScreen.TimeAction,
      5 ≤ ReviewScreen.timeLimitAfter as ∧ ReviewScreen.timeLimitAfter as ≤ 60) ∧
    (∀ parsed : Option Int,
      5 ≤ ReviewScreen.timeInputClamp parsed ∧ ReviewScreen.timeInputClamp parsed ≤ 60) ∧
    (ReviewScreen.TIME_PRESETS.all fun v => decide (10 ≤ v) && decide (v ≤ 60)) = true ∧
    ReviewScreen.defaultTimeLimit = 15 := by
  refine ⟨?_, Quiz.timeInputClamp_bounds, by decide, rfl⟩
  intro as
  exact Quiz.timeFold_bounds as ReviewScreen.defaultTimeLimit (by decide) (by decide)

/-- C7: in every lobby render the Start Game button is disabled exactly when
the player count is zero, so a click reaches onStartGame only with at least
one participant. -/
theorem lobby_startGame_requires_players :
    ∀ n : Nat,
      (LobbyScreen.startGameDisabled n = true ↔ n = 0) ∧
      (LobbyScreen.startGameClickFires n = true ↔ 1 ≤ n) := by
  intro n
  constructor
  · simp [LobbyScreen.startGameDisabled]
  · simp [LobbyScreen.startGameClickFires, LobbyScreen.startGameDisabled]
    omega

/-- C9: for a leaderboard entry with nonzero rank_change the UI renders an
up-arrow carrying the value exactly when rank_change is positive, and a
down-arrow carrying its absolute value exactly when it is negative. -/
theorem leaderboard_rank_change_arrows :
    ∀ (e : Quiz.LeaderboardEntry) (rc : Int), e.rank_change = some rc → rc ≠ 0 →
      ((Leaderboard.entryRankArrow e = some (Leaderboard.RankArrow.upArrow rc) ↔ 0 < rc) ∧
       (Leaderboard.entryRankArrow e = some (Leaderboard.RankArrow.downArrow rc.natAbs) ↔ rc < 0)) := by
  intro e rc he hrc
  simp only [Leaderboard.entryRankArrow, he]
  unfold Leaderboard.rankChangeIndicator
  rw [if_pos hrc]
  by_cases hpos : rc > 0
  · rw [if_pos hpos]
    refine ⟨by simp [hpos], ?_⟩
    simp only [Option.some.injEq]
    constructor
    · intro h
      exact Leaderboard.RankArrow.noConfusion h
    · intro h
      omega
  · rw [if_neg hpos]
    have hneg : rc < 0 := by omega
    refine ⟨?_, by simp [hneg]⟩
    simp only [Option.some.injEq]
    constructor
    · intro h
      exact Leaderboard.RankArrow.noConfusion h
    · intro h
      exact absurd h hpos

/-- C1: a correct answer with latency fraction f in [0,1] is awarded
round(base * player_multiplier * streak_mul * bonus_mul) points with
base = round(1000 * (1 - 0.5 * f)); an incorrect or unanswered question
yields 0 points and resets the streak to 0; a lone correct answer at
f = 0.2 with no multipliers yields exactly 900 points. -/
theorem scorer_points_formula :
    (∀ (f : Rat) (oldStreak : Nat) (playerMultiplier : Rat) (isBonus : Bool),
      0 ≤ f → f ≤ 1 →
      Scorer.scorer true f oldStreak playerMultiplier isBonus =
        { points := round (((round (1000 * (1 - (1 / 2) * f)) : Int) : Rat) *
            playerMultiplier * Scorer.streakMultiplier (oldStreak + 1) *
            Scorer.bonusMultiplier isBonus),
          newStreak := oldStreak + 1 }) ∧
    (∀ (f : Rat) (oldStreak : Nat) (playerMultiplier : Rat) (isBonus : Bool),
      Scorer.scorer false f oldStreak playerMultiplier isBonus =
        { points := 0, newStreak := 0 }) ∧
    Scorer.scorer true (1 / 5) 0 1 false = { points := 900, newStreak := 1 } := by
  refine ⟨?_, ?_, ?_⟩
  · intro f oldStreak m b _ _
    simp [Scorer.scorer, Scorer.scoreBase]
  · intro f oldStreak m b
    simp [Scorer.scorer]
  · norm_num [Scorer.scorer, Scorer.scoreBase, Scorer.streakMultiplier,
      Scorer.bonusMultiplier, round_eq]

/-- Witness for C1: the formula instantiated at f = 1/5 with no
multipliers, hypotheses discharged concretely. -/
theorem scorer_points_formula_witness :
    ((0 : Rat) ≤ 1 / 5 ∧ (1 / 5 : Rat) ≤ 1) ∧
    Scorer.scorer true (1 / 5) 0 1 false =
      { points := round (((round (1000 * (1 - (1 / 2) * (1 / 5 : Rat))) : Int) : Rat) *
          1 * Scorer.streakMultiplier (0 + 1) * Scorer.bonusMultiplier false),
        newStreak := 0 + 1 } :=
  ⟨⟨by norm_num, by norm_num⟩,
   scorer_points_formula.1 (1 / 5) 0 1 false (by norm_num) (by norm_num)⟩

/-- C5: a ROOM_RESET event zeroes every piece of per-game scoring state and
returns the client to the LOBBY screen, while the nickname, team, avatar
and the open connection are untouched. -/
theorem room_reset_clears_game_state :
    ∀ (s : Quiz.ClientState) (players : Option (List Quiz.PlayerInfo)),
      (Quiz.handleMessage s (Quiz.ServerMsg.ROOM_RESET players)).state = Quiz.PState.LOBBY ∧
      (Quiz.handleMessage s (Quiz.ServerMsg.ROOM_RESET players)).streak = 0 ∧
      (Quiz.handleMessage s (Quiz.ServerMsg.ROOM_RESET players)).multiplier = 1 ∧
      (Quiz.handleMessage s (Quiz.ServerMsg.ROOM_RESET players)).pointsEarned = 0 ∧
      (Quiz.handleMessage s (Quiz.ServerMsg.ROOM_RESET players)).powerUps =
        { double_points := true, fifty_fifty := true } ∧
      (Quiz.handleMessage s (Quiz.ServerMsg.ROOM_RESET players)).leaderboard = [] ∧
      (Quiz.handleMessage s (Quiz.ServerMsg.ROOM_RESET players)).teamLeaderboard = [] ∧
      (Quiz.handleMessage s (Quiz.ServerMsg.ROOM_RESET players)).myRank = 0 ∧
      (Quiz.handleMessage s (Quiz.ServerMsg.ROOM_RESET players)).selectedAnswer = none ∧
      (Quiz.handleMessage s (Quiz.ServerMsg.ROOM_RESET players)).currentQuestion = none ∧
      (Quiz.handleMessage s (Quiz.ServerMsg.ROOM_RESET players)).nickname = s.nickname ∧
      (Quiz.handleMessage s (Quiz.ServerMsg.ROOM_RESET players)).team = s.team ∧
      (Quiz.handleMessage s (Quiz.ServerMsg.ROOM_RESET players)).avatar = s.avatar ∧
      (Quiz.handleMessage s (Quiz.ServerMsg.ROOM_RESET players)).wsOpen = s.wsOpen ∧
      (Quiz.handleMessage s (Quiz.ServerMsg.ROOM_RESET players)).kicked = s.kicked := by
  intro s players
  simp [Quiz.handleMessage]

/-- C6: after a KICKED event the client is back on the JOIN screen with the
takeover message and the kicked flag set, so the following socket close
schedules no rejoin; a close in any other non-JOIN, non-PODIUM state with
the flag clear schedules a rejoin after 2000 ms. -/
theorem kicked_close_never_rejoins :
    (∀ s : Quiz.ClientState,
      Quiz.handleMessage s Quiz.ServerMsg.KICKED =
        { s with kicked := true, wsOpen := false, state := Quiz.PState.JOIN,
                 errorMsg := "You joined from another device" } ∧
      Quiz.handleClose (Quiz.handleMessage s Quiz.ServerMsg.KICKED) =
        ({ s with kicked := false, wsOpen := false, state := Quiz.PState.JOIN,
                  errorMsg := "You joined from another device" }, none)) ∧
    (∀ s : Quiz.ClientState, s.kicked = false →
      s.state ≠ Quiz.PState.JOIN → s.state ≠ Quiz.PState.PODIUM →
      Quiz.handleClose s = ({ s with state := Quiz.PState.RECONNECTING }, some 2000)) := by
  constructor
  · intro s
    constructor
    · simp [Quiz.handleMessage]
    · simp [Quiz.handleMessage, Quiz.handleClose]
  · intro s hk hj hp
    simp [Quiz.handleClose, hk, hj, hp]

/-- Witness for C6: a concrete kicked-then-closed run and a concrete
mid-game close that does schedule the 2-second rejoin. -/
theorem kicked_close_never_rejoins_witness :
    (({ Quiz.initialClientState "ABC123" "ann" "" "A" with
        state := Quiz.PState.QUESTION }.kicked = false) ∧
      { Quiz.initialClientState "ABC123" "ann" "" "A" with
        state := Quiz.PState.QUESTION }.state ≠ Quiz.PState.JOIN ∧
      { Quiz.initialClientState "ABC123" "ann" "" "A" with
        state := Quiz.PState.QUESTION }.state ≠ Quiz.PState.PODIUM) ∧
    Quiz.handleClose { Quiz.initialClientState "ABC123" "ann" "" "A" with
        state := Quiz.PState.QUESTION } =
      ({ Quiz.initialClientState "ABC123" "ann" "" "A" with
         state := Quiz.PState.RECONNECTING }, some 2000) :=
  ⟨⟨by decide, by decide, by decide⟩,
   kicked_close_never_rejoins.2
     { Quiz.initialClientState "ABC123" "ann" "" "A" with state := Quiz.PState.QUESTION }
     (by decide) (by decide) (by decide)⟩

/-- C8: a blank room code or nickname is rejected before any JOIN is sent
(joinRoom returns with no socket opened and no frame), a non-blank pair
opens the socket and sends exactly the JOIN frame, and the nickname input
never holds more than 20 characters. -/
theorem joinRoom_rejects_blank_nickname :
    (∀ s : Quiz.ClientState, Quiz.jsTrim s.roomCode = "" ∨ Quiz.jsTrim s.nickname = "" →
      Quiz.joinRoom s = (s, none)) ∧
    (∀ s : Quiz.ClientState, (Quiz.joinRoom s).2 = none ↔
      (Quiz.jsTrim s.roomCode = "" ∨ Quiz.jsTrim s.nickname = "")) ∧
    (∀ typed : String,
      (Quiz.nicknameInputValue typed).length ≤ Quiz.nicknameMaxLength) := by
  refine ⟨?_, ?_, ?_⟩
  · intro s h
    unfold Quiz.joinRoom
    rw [if_pos h]
  · intro s
    unfold Quiz.joinRoom
    split
    · next h => exact iff_of_true rfl h
    · next h => exact iff_of_false (fun hx => Option.noConfusion hx) h
  · intro typed
    unfold Quiz.nicknameInputValue Quiz.nicknameMaxLength
    rw [String.take_eq]
    exact List.length_take_le 20 typed.data

/-- Witness for C8: a whitespace-only nickname is rejected concretely. -/
theorem joinRoom_rejects_blank_nickname_witness :
    (Quiz.jsTrim (Quiz.initialClientState "ABC123" "   " "" "A").roomCode = "" ∨
     Quiz.jsTrim (Quiz.initialClientState "ABC123" "   " "" "A").nickname = "") ∧
    Quiz.joinRoom (Quiz.initialClientState "ABC123" "   " "" "A") =
      (Quiz.initialClientState "ABC123" "   " "" "A", none) :=
  ⟨by decide, joinRoom_rejects_blank_nickname.1
    (Quiz.initialClientState "ABC123" "   " "" "A") (by decide)⟩

namespace Quiz

/-- Helper: no server event outside QUESTION, RECONNECTED and ROOM_RESET
writes to `selectedAnswer`. -/
theorem handleMessage_preserves_selected (s : ClientState) (m : ServerMsg)
    (h : clearsAnswerSelection (ClientEvent.server m) = false) (a : Nat)
    (hs : s.selectedAnswer = some a) :
    (handleMessage s m).selectedAnswer = some a := by
  cases m <;> simp_all [handleMessage, clearsAnswerSelection] <;>
    repeat' (split <;> (try simp_all))

/-- Helper: no event outside QUESTION, RECONNECTED and ROOM_RESET clears an
already selected answer. -/
theorem step_preserves_selected (s : ClientState) (e : ClientEvent)
    (h : clearsAnswerSelection e = false) (a : Nat) (hs : s.selectedAnswer = some a) :
    (step s e).1.selectedAnswer = some a := by
  cases e with
  | server m => exact handleMessage_preserves_selected s m h a hs
  | clickAnswer i =>
      simp only [step]
      split
      · simp [submitAnswer, hs]
      · exact hs
  | clickPowerUp p =>
      simp only [step]
      split <;> simp [usePowerUp, hs]
  | splashDone => simpa [step] using hs
  | socketClosed =>
      simp only [step, handleClose]
      repeat' (split <;> (try simp_all))
  | rejoin =>
      simp only [step, joinRoom]
      split <;> simp [hs]

/-- Helper: a single step sends at most one frame. -/
theorem step_frames_length (s : ClientState) (e : ClientEvent) :
    (step s e).2.length ≤ 1 := by
  cases e with
  | server m => simp [step]
  | clickAnswer i =>
      simp only [step, submitAnswer, sendFrame]
      repeat' split
      all_goals simp
  | clickPowerUp p =>
      simp only [step, usePowerUp, sendFrame]
      repeat' split
      all_goals simp
  | splashDone => simp [step]
  | socketClosed => simp [step]
  | rejoin =>
      simp only [step]
      cases (joinRoom s).2 <;> simp

/-- Helper: at most one ANSWER frame leaves in a single step. -/
theorem step_answer_count_le_one (s : ClientState) (e : ClientEvent) :
    answerFrameCount (step s e).2 ≤ 1 :=
  le_trans (List.countP_le_length _) (step_frames_length s e)

/-- Helper: with an answer already selected, no step emits an ANSWER frame. -/
theorem step_no_answer_of_selected (s : ClientState) (e : ClientEvent) (a : Nat)
    (hs : s.selectedAnswer = some a) :
    answerFrameCount (step s e).2 = 0 := by
  cases e with
  | server m => simp [step, answerFrameCount]
  | clickAnswer i =>
      simp [step, answerButtonEnabled, hs, answerFrameCount]
  | clickPowerUp p =>
      simp only [step, usePowerUp, sendFrame]
      repeat' split
      all_goals simp [answerFrameCount, isAnswerFrame]
  | splashDone => simp [step, answerFrameCount]
  | socketClosed => simp [step, answerFrameCount]
  | rejoin =>
      simp only [step, joinRoom]
      split <;> simp [answerFrameCount, isAnswerFrame]

/-- Helper: a step that emits an ANSWER frame leaves an answer selected. -/
theorem step_selected_of_answer_frame (s : ClientState) (e : ClientEvent)
    (h : answerFrameCount (step s e).2 ≠ 0) :
    (step s e).1.selectedAnswer ≠ none := by
  cases e with
  | server m => simp [step, answerFrameCount] at h
  | clickAnswer i =>
      simp only [step] at h ⊢
      by_cases hg : answerButtonEnabled s i = true
      · rw [if_pos hg] at h ⊢
        simp only [submitAnswer] at h ⊢
        rcases hn : s.selectedAnswer with _ | a
        · simp [hn]
        · simp [hn, answerFrameCount] at h
      · rw [if_neg hg] at h
        simp [answerFrameCount] at h
  | clickPowerUp p =>
      simp only [step, usePowerUp, sendFrame] at h
      repeat' split at h
      all_goals simp [answerFrameCount, isAnswerFrame] at h
  | splashDone => simp [step, answerFrameCount] at h
  | socketClosed => simp [step, answerFrameCount] at h
  | rejoin =>
      simp only [step] at h
      unfold joinRoom at h
      split at h <;> simp [answerFrameCount, isAnswerFrame] at h

/-- Helper: across any run without selection-clearing events, at most one
ANSWER frame leaves, and none at all when an answer is already selected. -/
theorem runClient_answer_invariant (es : List ClientEvent) :
    ∀ s : ClientState, (∀ e ∈ es, clearsAnswerSelection e = false) →
      answerFrameCount (runClient s es).2 ≤ 1 ∧
      (∀ a : Nat, s.selectedAnswer = some a →
        answerFrameCount (runClient s es).2 = 0) := by
  induction es with
  | nil =>
      intro s h
      simp [runClient, answerFrameCount]
  | cons e es ih =>
      intro s h
      have he : clearsAnswerSelection e = false := h e (List.mem_cons_self e es)
      have hes : ∀ x ∈ es, clearsAnswerSelection x = false :=
        fun x hx => h x (List.mem_cons_of_mem e hx)
      obtain ⟨ih1, ih2⟩ := ih (step s e).1 hes
      have happ : answerFrameCount (runClient s (e :: es)).2 =
          answerFrameCount (step s e).2 +
          answerFrameCount (runClient (step s e).1 es).2 := by
        simp [runClient, answerFrameCount, List.countP_append]
      constructor
      · by_cases hz : answerFrameCount (step s e).2 = 0
        · rw [happ, hz]
          simpa using ih1
        · have hsome := step_selected_of_answer_frame s e hz
          obtain ⟨a, ha⟩ := Option.ne_none_iff_exists'.mp hsome
          have h0 := ih2 a ha
          have hle := step_answer_count_le_one s e
          rw [happ, h0]
          omega
      · intro a ha
        have h0 := step_no_answer_of_selected s e a ha
        have hpres := step_preserves_selected s e he a ha
        have h1 := ih2 a hpres
        rw [happ, h0, h1]

end Quiz

/-- C2: between two consecutive QUESTION events the player client sends at
most one ANSWER frame: submitAnswer is a no-op once an answer is selected,
selection survives every event other than QUESTION, RECONNECTED and
ROOM_RESET, and any run free of those events emits at most one ANSWER. -/
theorem player_at_most_one_answer :
    (∀ (s : Quiz.ClientState) (i a : Nat), s.selectedAnswer = some a →
      Quiz.submitAnswer s i = (s, [])) ∧
    (∀ (s : Quiz.ClientState) (e : Quiz.ClientEvent) (a : Nat),
      Quiz.clearsAnswerSelection e = false → s.selectedAnswer = some a →
      (Quiz.step s e).1.selectedAnswer = some a) ∧
    (∀ (s : Quiz.ClientState) (es : List Quiz.ClientEvent),
      (∀ e ∈ es, Quiz.clearsAnswerSelection e = false) →
      Quiz.answerFrameCount (Quiz.runClient s es).2 ≤ 1) := by
  refine ⟨?_, ?_, ?_⟩
  · intro s i a ha
    simp [Quiz.submitAnswer, ha]
  · intro s e a he ha
    exact Quiz.step_preserves_selected s e he a ha
  · intro s es h
    exact (Quiz.runClient_answer_invariant es s h).1

namespace Quiz

/-- Helper: a rendered power-up button implies the question screen is up,
no answer is selected and the power-up is unspent. -/
theorem powerUpShown_spec (s : ClientState) (p : PowerUp)
    (h : powerUpShown s p = true) :
    s.state = PState.QUESTION ∧ s.selectedAnswer = none ∧
    powerUpFlag s.powerUps p = true := by
  cases p <;>
    simp only [powerUpShown, powerUpFlag, Bool.and_eq_true, decide_eq_true_eq,
      Option.isNone_iff_eq_none] at h ⊢ <;>
    tauto

/-- Helper: the 50/50 button is rendered only over a 4-option question. -/
theorem fiftyFiftyShown_options (s : ClientState)
    (h : powerUpShown s PowerUp.fifty_fifty = true) :
    currentOptionsCount s = 4 := by
  simp only [powerUpShown, Bool.and_eq_true, decide_eq_true_eq] at h
  tauto

end Quiz

namespace Quiz

/-- Helper: with a two-option question displayed, no single step can send a
fifty-fifty USE_POWER_UP frame. -/
theorem step_no_fifty_on_two (s : ClientState) (e : ClientEvent)
    (q : PlayerQuestion) (hq : s.currentQuestion = some q)
    (h2 : q.options.length = 2) :
    Frame.USE_POWER_UP PowerUp.fifty_fifty ∉ (step s e).2 := by
  cases e with
  | server m => simp [step]
  | clickAnswer i =>
      simp only [step, submitAnswer, sendFrame]
      repeat' split
      all_goals simp
  | clickPowerUp p =>
      simp only [step, usePowerUp, sendFrame]
      split
      · next hshown =>
          cases p with
          | double_points =>
              split <;> simp
          | fifty_fifty =>
              have h4 := fiftyFiftyShown_options s hshown
              simp [currentOptionsCount, hq, h2] at h4
      · simp
  | splashDone => simp [step]
  | socketClosed => simp [step]
  | rejoin =>
      simp only [step]
      unfold joinRoom
      split <;> simp

end Quiz

namespace Quiz

/-- Helper: a spent power-up stays spent across any non-ROOM_RESET event,
and no USE_POWER_UP frame for it can leave in such a step. -/
theorem step_powerUp_monotone (s : ClientState) (e : ClientEvent) (p : PowerUp)
    (h : isRoomResetEvent e = false) (hf : powerUpFlag s.powerUps p = false) :
    powerUpFlag (step s e).1.powerUps p = false ∧
    Frame.USE_POWER_UP p ∉ (step s e).2 := by
  cases e with
  | server m =>
      refine ⟨?_, by simp [step]⟩
      cases m <;> cases p <;>
        simp_all [step, handleMessage, isRoomResetEvent, powerUpFlag] <;>
        repeat' (split <;> (try simp_all))
  | clickAnswer i =>
      constructor
      · simp only [step, submitAnswer, sendFrame]
        repeat' split
        all_goals simp_all [powerUpFlag]
      · simp only [step, submitAnswer, sendFrame]
        repeat' split
        all_goals simp
  | clickPowerUp p' =>
      simp only [step, usePowerUp, sendFrame]
      split
      · next hshown =>
          have hflag := (powerUpShown_spec s p' hshown).2.2
          constructor
          · exact hf
          · split
            · next =>
                simp only [List.mem_singleton]
                intro hcontra
                have : p' = p := by
                  cases p' <;> cases p <;> simp_all
                rw [this] at hflag
                rw [hflag] at hf
                exact Bool.noConfusion hf
            · simp
      · exact ⟨hf, by simp⟩
  | splashDone => exact ⟨hf, by simp [step]⟩
  | socketClosed =>
      refine ⟨?_, by simp [step]⟩
      simp only [step, handleClose]
      repeat' (split <;> (try simp_all [powerUpFlag]))
  | rejoin =>
      constructor
      · simp only [step]
        unfold joinRoom
        split <;> simp_all [powerUpFlag]
      · simp only [step]
        unfold joinRoom
        split <;> simp

end Quiz

namespace Quiz

/-- Helper: a spent power-up stays spent and is never sent again across any
run free of ROOM_RESET events. -/
theorem runClient_powerUp_invariant (es : List ClientEvent) :
    ∀ (s : ClientState) (p : PowerUp), powerUpFlag s.powerUps p = false →
      (∀ e ∈ es, isRoomResetEvent e = false) →
      powerUpFlag (runClient s es).1.powerUps p = false ∧
      Frame.USE_POWER_UP p ∉ (runClient s es).2 := by
  induction es with
  | nil =>
      intro s p hf h
      simpa [runClient] using hf
  | cons e es ih =>
      intro s p hf h
      have he : isRoomResetEvent e = false := h e (List.mem_cons_self e es)
      have hes : ∀ x ∈ es, isRoomResetEvent x = false :=
        fun x hx => h x (List.mem_cons_of_mem e hx)
      obtain ⟨hstep, hmem⟩ := step_powerUp_monotone s e p he hf
      obtain ⟨ih1, ih2⟩ := ih (step s e).1 p hstep hes
      refine ⟨by simpa [runClient] using ih1, ?_⟩
      simp only [runClient, List.mem_append]
      rintro (hc | hc)
      · exact hmem hc
      · exact ih2 hc

end Quiz

/-- C3: the player client never sends a fifty-fifty USE_POWER_UP frame while
a two-option question is displayed; the 50/50 button is rendered only when
the power-up is unspent, no answer is selected and the current question has
exactly 4 options. -/
theorem no_fifty_fifty_on_two_option_question :
    (∀ (s : Quiz.ClientState) (e : Quiz.ClientEvent) (q : Quiz.PlayerQuestion),
      s.currentQuestion = some q → q.options.length = 2 →
      Quiz.Frame.USE_POWER_UP Quiz.PowerUp.fifty_fifty ∉ (Quiz.step s e).2) ∧
    (∀ s : Quiz.ClientState,
      Quiz.powerUpShown s Quiz.PowerUp.fifty_fifty = true →
      s.powerUps.fifty_fifty = true ∧ s.selectedAnswer = none ∧
      Quiz.currentOptionsCount s = 4) := by
  constructor
  · intro s e q hq h2
    exact Quiz.step_no_fifty_on_two s e q hq h2
  · intro s h
    exact ⟨(Quiz.powerUpShown_spec s _ h).2.2, (Quiz.powerUpShown_spec s _ h).2.1,
      Quiz.fiftyFiftyShown_options s h⟩

/-- C4: power-ups are usable only before the player's own answer and at most
once per game: a rendered power-up button implies no selected answer and an
unspent flag, a POWER_UP_ACTIVATED event spends the flag, a spent flag stays
spent — and the corresponding USE_POWER_UP frame cannot be sent — across any
events until a ROOM_RESET, which restores both flags. -/
theorem power_up_before_answer_once_per_game :
    (∀ (s : Quiz.ClientState) (p : Quiz.PowerUp),
      Quiz.powerUpShown s p = true →
      s.selectedAnswer = none ∧ Quiz.powerUpFlag s.powerUps p = true) ∧
    (∀ (s : Quiz.ClientState) (p : Quiz.PowerUp) (r : Option (List Nat)),
      Quiz.powerUpFlag
        (Quiz.handleMessage s (Quiz.ServerMsg.POWER_UP_ACTIVATED p r)).powerUps p = false) ∧
    (∀ (s : Quiz.ClientState) (p : Quiz.PowerUp) (es : List Quiz.ClientEvent),
      Quiz.powerUpFlag s.powerUps p = false →
      (∀ e ∈ es, Quiz.isRoomResetEvent e = false) →
      Quiz.powerUpFlag (Quiz.runClient s es).1.powerUps p = false ∧
      Quiz.Frame.USE_POWER_UP p ∉ (Quiz.runClient s es).2) ∧
    (∀ (s : Quiz.ClientState) (players : Option (List Quiz.PlayerInfo)),
      (Quiz.handleMessage s (Quiz.ServerMsg.ROOM_RESET players)).powerUps =
        { double_points := true, fifty_fifty := true }) := by
  refine ⟨?_, ?_, ?_, ?_⟩
  · intro s p h
    exact ⟨(Quiz.powerUpShown_spec s p h).2.1, (Quiz.powerUpShown_spec s p h).2.2⟩
  · intro s p r
    cases p
    all_goals simp only [Quiz.handleMessage, Quiz.powerUpFlag]
    all_goals repeat' (split <;> (try simp_all))
  · intro s p es hf h
    exact Quiz.runClient_powerUp_invariant es s p hf h
  · intro s players
    simp [Quiz.handleMessage]

/-- Witness for C2: three answer clicks on one question produce one frame. -/
theorem player_at_most_one_answer_witness :
    ([Quiz.ClientEvent.clickAnswer 1, Quiz.ClientEvent.clickAnswer 2,
        Quiz.ClientEvent.clickAnswer 1].all
      fun e => !Quiz.clearsAnswerSelection e) = true ∧
    Quiz.answerFrameCount (Quiz.runClient (Quiz.questionClientState Quiz.sampleQuestion4)
      [Quiz.ClientEvent.clickAnswer 1, Quiz.ClientEvent.clickAnswer 2,
        Quiz.ClientEvent.clickAnswer 1]).2 ≤ 1 :=
  ⟨by decide,
   player_at_most_one_answer.2.2 (Quiz.questionClientState Quiz.sampleQuestion4)
     [Quiz.ClientEvent.clickAnswer 1, Quiz.ClientEvent.clickAnswer 2,
       Quiz.ClientEvent.clickAnswer 1] (by decide)⟩

/-- Witness for C3: clicking 50/50 on a displayed true/false question sends
nothing. -/
theorem no_fifty_fifty_on_two_option_question_witness :
    ((Quiz.questionClientState Quiz.sampleQuestion2).currentQuestion =
        some Quiz.sampleQuestion2 ∧
      Quiz.sampleQuestion2.options.length = 2) ∧
    Quiz.Frame.USE_POWER_UP Quiz.PowerUp.fifty_fifty ∉
      (Quiz.step (Quiz.questionClientState Quiz.sampleQuestion2)
        (Quiz.ClientEvent.clickPowerUp Quiz.PowerUp.fifty_fifty)).2 :=
  ⟨⟨by decide, by decide⟩,
   no_fifty_fifty_on_two_option_question.1
     (Quiz.questionClientState Quiz.sampleQuestion2)
     (Quiz.ClientEvent.clickPowerUp Quiz.PowerUp.fifty_fifty)
     Quiz.sampleQuestion2 (by decide) (by decide)⟩

/-- Witness for C4: with the 50/50 already spent, a further click sends no
second USE_POWER_UP frame. -/
theorem power_up_before_answer_once_per_game_witness :
    (Quiz.powerUpFlag { Quiz.questionClientState Quiz.sampleQuestion4 with
        powerUps := { double_points := true, fifty_fifty := false } }.powerUps
        Quiz.PowerUp.fifty_fifty = false ∧
      ([Quiz.ClientEvent.clickPowerUp Quiz.PowerUp.fifty_fifty,
          Quiz.ClientEvent.clickAnswer 0].all
        fun e => !Quiz.isRoomResetEvent e) = true) ∧
    (Quiz.powerUpFlag (Quiz.runClient { Quiz.questionClientState Quiz.sampleQuestion4 with
        powerUps := { double_points := true, fifty_fifty := false } }
        [Quiz.ClientEvent.clickPowerUp Quiz.PowerUp.fifty_fifty,
          Quiz.ClientEvent.clickAnswer 0]).1.powerUps Quiz.PowerUp.fifty_fifty = false ∧
      Quiz.Frame.USE_POWER_UP Quiz.PowerUp.fifty_fifty ∉
        (Quiz.runClient { Quiz.questionClientState Quiz.sampleQuestion4 with
          powerUps := { double_points := true, fifty_fifty := false } }
          [Quiz.ClientEvent.clickPowerUp Quiz.PowerUp.fifty_fifty,
            Quiz.ClientEvent.clickAnswer 0]).2) :=
  ⟨⟨by decide, by decide⟩,
   power_up_before_answer_once_per_game.2.2.1
     { Quiz.questionClientState Quiz.sampleQuestion4 with
       powerUps := { double_points := true, fifty_fifty := false } }
     Quiz.PowerUp.fifty_fifty
     [Quiz.ClientEvent.clickPowerUp Quiz.PowerUp.fifty_fifty,
       Quiz.ClientEvent.clickAnswer 0] (by decide) (by decide)⟩

/-- Witness for C9: a player who rose two places gets an up-arrow with 2,
and no down-arrow. -/
theorem leaderboard_rank_change_arrows_witness :
    (({ nickname := "ann", score := 100, rank_change := some 2 } :
        Quiz.LeaderboardEntry).rank_change = some 2 ∧ (2 : Int) ≠ 0) ∧
    ((Leaderboard.entryRankArrow
        { nickname := "ann", score := 100, rank_change := some 2 } =
        some (Leaderboard.RankArrow.upArrow 2) ↔ (0 : Int) < 2) ∧
     (Leaderboard.entryRankArrow
        { nickname := "ann", score := 100, rank_change := some 2 } =
        some (Leaderboard.RankArrow.downArrow (2 : Int).natAbs) ↔ (2 : Int) < 0)) :=
  ⟨⟨rfl, by decide⟩,
   leaderboard_rank_change_arrows
     { nickname := "ann", score := 100, rank_change := some 2 } 2 rfl (by decide)⟩
